import Mathlib

/-!
Verification of the Vault relationship-journaling core.

Shallow embedding of `src/core/models.py`, `src/core/views.py` and
`src/core/analytics.py`.  Django querysets over the persistent store are
modelled as explicit lists carried in a `DB` record; machine floats
(`sentiment_score`) are idealised as rationals; `created_at` timestamps are
reduced to the (year, month) pair, which is all the analytics engine reads
from them.  Users are identified by their numeric id.
-/

namespace Vault

/-- A calendar date, as stored in Django `DateField`s. -/
structure Date where
  year : Nat
  month : Nat
  day : Nat
deriving DecidableEq, Repr

/-- Strict lexicographic order on dates (the order Django uses for
`order_by('active_date')`). -/
def Date.ltb (a b : Date) : Bool :=
  a.year < b.year ||
    (a.year == b.year && (a.month < b.month ||
      (a.month == b.month && a.day < b.day)))

/-- Non-strict lexicographic order on dates. -/
def Date.leb (a b : Date) : Bool :=
  a.year < b.year ||
    (a.year == b.year && (a.month < b.month ||
      (a.month == b.month && a.day ≤ b.day)))

/-- Embeds `core.models.Couple`: the vault pairing two users.  `user2` is nullable
until a partner joins; `invite_code` is the URL-safe token generated at
creation; `is_ended` marks the vault read-only.  (`anniversary_date` and
`ended_date` carry no logic used by the claims and are omitted.) -/
structure Couple where
  id : Nat
  user1 : Nat
  user2 : Option Nat
  invite_code : String
  is_ended : Bool
deriving DecidableEq, Repr

/-- Embeds `Couple.get_partner`: given one user, return their partner (or `None`
when the user is in neither slot). -/
def Couple.getPartner (c : Couple) (user : Nat) : Option Nat :=
  if user = c.user1 then c.user2
  else if some user = c.user2 then some c.user1
  else none

/-- Embeds `Couple.includes_user`. -/
def Couple.includesUser (c : Couple) (user : Nat) : Bool :=
  user == c.user1 || c.user2 == some user

/-- The error cases of `Couple.join_with_code`, in the order the source
checks them.  They stand for the literal message strings returned by the
code: "Invalid invite code", "This couple already has two members",
"You can not join your own couple". -/
inductive JoinError where
  | invalidCode
  | alreadyPaired
  | selfJoin
deriving DecidableEq, Repr

/-- Embeds `Couple.join_with_code(user, invite_code)`: looks the vault up by its
invite code, rejects when a second member is already set or the joiner is
the creator, and otherwise persists `user2 := user`.  Returns the
`(couple, error)` pair of the source plus the updated couples table (the
`couple.save()` persisting the change, keyed by primary key). -/
def joinWithCode (couples : List Couple) (user : Nat) (code : String) :
    (Option Couple × Option JoinError) × List Couple :=
  match couples.find? (fun c => c.invite_code == code) with
  | none => ((none, some .invalidCode), couples)
  | some c =>
    if c.user2.isSome then ((none, some .alreadyPaired), couples)
    else if c.user1 == user then ((none, some .selfJoin), couples)
    else
      ((some { c with user2 := some user }, none),
        couples.map (fun d => if d.id == c.id then { d with user2 := some user } else d))

/-- Embeds `core.models.Prompt`: a daily prompt keyed by its unique `active_date`
(month/day used for annual cycling). -/
structure Prompt where
  id : Nat
  text : String
  category : String
  active_date : Date
deriving DecidableEq, Repr

/-- Embeds `core.models.Entry`: one user's answer to one prompt inside one vault.
`couple` is nullable (legacy pre-vault rows).  `sentiment_score` is the
offline-computed float in [-1,1], idealised as a rational; `created_at` is
reduced to its year and month, the only parts the code reads. -/
structure Entry where
  user : Nat
  prompt : Nat
  couple : Option Nat
  text_content : String
  word_count : Nat
  sentiment_score : Option ℚ
  created_year : Nat
  created_month : Nat
deriving DecidableEq, Repr

/-- The persistent store: the three tables the claims touch. -/
structure DB where
  couples : List Couple
  prompts : List Prompt
  entries : List Entry
deriving DecidableEq, Repr

/-- Helper for `countWords`: counts the maximal non-whitespace runs of a
character list (`inWord` records whether the previous character was
non-whitespace). -/
def countRuns : List Char → Bool → Nat
  | [], _ => 0
  | c :: cs, inWord =>
    if c.isWhitespace then countRuns cs false
    else (if inWord then 0 else 1) + countRuns cs true

/-- Embeds `len(text_content.split())`: Python `str.split()` splits on whitespace
runs and drops empty tokens, so the length of the result is the number of
maximal non-whitespace runs. -/
def countWords (s : String) : Nat :=
  countRuns s.toList false

/-- Embeds `EntryForm.is_valid()`: `text_content` is the only required field and
Django strips surrounding whitespace, so the form is valid precisely when
the text contains some non-whitespace character. -/
def formValid (content : String) : Bool :=
  content.toList.any (fun c => !c.isWhitespace)

/-- The Entry built by `submit_entry` (`form.save(commit=False)` plus the
`Entry.save` override recomputing `word_count` from `text_content`). -/
def mkEntry (user : Nat) (prompt : Prompt) (couple : Couple) (content : String)
    (nowY nowM : Nat) : Entry :=
  { user := user
    prompt := prompt.id
    couple := some couple.id
    text_content := content
    word_count := countWords content
    sentiment_score := none
    created_year := nowY
    created_month := nowM }

/-- Embeds `Entry.get_user_entry_for_prompt(user, prompt, couple)`:
`filter(user=user, prompt=prompt, couple=couple).first()`. -/
def getUserEntryForPrompt (db : DB) (user : Nat) (prompt : Prompt) (couple : Couple) :
    Option Entry :=
  db.entries.find? (fun e =>
    e.user == user && e.prompt == prompt.id && e.couple == some couple.id)

/-- Embeds `Entry.get_partner_entry_for_prompt(user, prompt, couple)`: `None` when
the user is not a member or has no partner, otherwise the partner's entry
for the same prompt in the same vault. -/
def getPartnerEntryForPrompt (db : DB) (user : Nat) (prompt : Prompt) (couple : Couple) :
    Option Entry :=
  if couple.includesUser user then
    match couple.getPartner user with
    | none => none
    | some partner =>
      db.entries.find? (fun e =>
        e.user == partner && e.prompt == prompt.id && e.couple == some couple.id)
  else none

/-- The three reveal states of the daily journal. -/
inductive RevealState where
  | unanswered
  | waiting
  | unlocked
deriving DecidableEq, Repr

/-- The outcomes of `views.submit_entry`, in source order.  The error
constructors stand for the literal HTML snippets the view returns:
"Please connect to a partner first.", "This vault is read-only.",
"No prompt available today.", "You already answered today!". -/
inductive SubmitOutcome where
  | notPaired
  | readOnly
  | noPrompt
  | duplicate
  | invalidForm
  | created (state : RevealState)
deriving DecidableEq, Repr

/-- Embeds `views.submit_entry`: guards in source order (active couple present,
membership and a second member; ended flag; today's prompt — passed in
already resolved; duplicate check; form validation), then creates the entry
and reports `unlocked` or `waiting` depending on whether the partner's
entry exists.  Returns the outcome with the updated store. -/
def submitEntry (db : DB) (user : Nat) (activeCouple : Option Couple)
    (todaysPrompt : Option Prompt) (content : String) (nowY nowM : Nat) :
    SubmitOutcome × DB :=
  match activeCouple with
  | none => (.notPaired, db)
  | some couple =>
    if !(couple.includesUser user && couple.user2.isSome) then (.notPaired, db)
    else if couple.is_ended then (.readOnly, db)
    else
      match todaysPrompt with
      | none => (.noPrompt, db)
      | some prompt =>
        match getUserEntryForPrompt db user prompt couple with
        | some _ => (.duplicate, db)
        | none =>
          if formValid content then
            let e := mkEntry user prompt couple content nowY nowM
            let db2 : DB := { db with entries := db.entries ++ [e] }
            if (getPartnerEntryForPrompt db2 user prompt couple).isSome then
              (.created .unlocked, db2)
            else (.created .waiting, db2)
          else (.invalidForm, db)

/-- Insertion step of the stable sort used to model Django/Python ordering:
`r x y = true` means `x` may come before `y`. -/
def insertBy {α : Type} (r : α → α → Bool) (x : α) : List α → List α
  | [] => [x]
  | y :: ys => if r x y then x :: y :: ys else y :: insertBy r x ys

/-- Insertion sort modelling `order_by(...)` / `list.sort(...)`. -/
def sortBy {α : Type} (r : α → α → Bool) : List α → List α
  | [] => []
  | x :: xs => insertBy r x (sortBy r xs)

/-- One row of the `entry_history` listing: the user's entry plus the
partner's entry for the same prompt (revealed only when both exist). -/
structure HistoryItem where
  promptId : Nat
  user_entry : Entry
  partner_entry : Option Entry
  unlocked : Bool
deriving DecidableEq, Repr

/-- The `active_date` of the prompt an entry references (the
`order_by('-prompt__active_date')` join key; by foreign-key integrity the
prompt row always exists). -/
def promptDateOf (db : DB) (pid : Nat) : Date :=
  ((db.prompts.find? (fun p => p.id == pid)).map (fun p => p.active_date)).getD ⟨0, 0, 0⟩

/-- Embeds `views.entry_history`: the user's entries in this vault, newest prompt
first, each paired with the partner's entry for the same prompt when it
exists.  (When the user has no partner, the `filter(user=None)` lookup of
the source matches nothing, modelled by the `none` branch.) -/
def entryHistory (db : DB) (user : Nat) (couple : Couple) : List HistoryItem :=
  let userEntries := db.entries.filter (fun e =>
    e.user == user && e.couple == some couple.id)
  let sorted := sortBy (fun a b =>
    Date.leb (promptDateOf db b.prompt) (promptDateOf db a.prompt)) userEntries
  sorted.map (fun e =>
    let pe : Option Entry :=
      match couple.getPartner user with
      | none => none
      | some pu =>
        db.entries.find? (fun e2 =>
          e2.user == pu && e2.prompt == e.prompt && e2.couple == some couple.id)
    { promptId := e.prompt, user_entry := e, partner_entry := pe,
      unlocked := pe.isSome })

/-- Embeds `views.create_vault`: `Couple.objects.create(user1=request.user)` — a
new SOLO vault with the creator in slot one, no second member, and a
freshly generated unique invite code (`Couple.save` generates it; `id` is
the fresh autoincrement primary key). -/
def mkSoloCouple (id user : Nat) (code : String) : Couple :=
  ⟨id, user, none, code, false⟩

/-- The couples tables reachable through the vault lifecycle operations of
the source: `create_vault` (fresh primary key), `join_with_code`, and the
settings-page updates that flip the ended flag but never touch the member
slots. -/
inductive ReachableCouples : List Couple → Prop
  | nil : ReachableCouples []
  | create (cs : List Couple) (id user : Nat) (code : String) :
      ReachableCouples cs → (∀ c ∈ cs, c.id ≠ id) →
      ReachableCouples (cs ++ [mkSoloCouple id user code])
  | join (cs : List Couple) (user : Nat) (code : String) :
      ReachableCouples cs → ReachableCouples (joinWithCode cs user code).2
  | setEnded (cs : List Couple) (cid : Nat) (b : Bool) :
      ReachableCouples cs →
      ReachableCouples (cs.map (fun c => if c.id == cid then { c with is_ended := b } else c))

/-- Python `round()` to the nearest integer, ties to even (the banker's
rounding `round(x, 3)` applies to the scaled value). -/
def pyRoundZ (q : ℚ) : ℤ :=
  let f := ⌊q⌋
  let r := q - (f : ℚ)
  if r < 1/2 then f
  else if 1/2 < r then f + 1
  else if f % 2 = 0 then f else f + 1

/-- Python `round(x, 3)`: round to three decimal places. -/
def round3 (q : ℚ) : ℚ :=
  (pyRoundZ (q * 1000) : ℚ) / 1000

/-- Embeds `analytics.CoupleAnalytics(couple, year)`: the per-vault, per-year
analytics scope. -/
structure CoupleAnalytics where
  couple : Couple
  year : Nat
deriving DecidableEq, Repr

/-- Embeds `self.users`: `[u for u in [self.user1, self.user2] if u is not None]`. -/
def CoupleAnalytics.users (a : CoupleAnalytics) : List Nat :=
  a.couple.user1 :: a.couple.user2.toList

/-- The queryset `Entry.objects.filter(user__in=self.users, couple=self.couple,
created_at__year=self.year)` shared by the combined activity metrics. -/
def CoupleAnalytics.yearEntries (a : CoupleAnalytics) (db : DB) : List Entry :=
  db.entries.filter (fun e =>
    decide (e.user ∈ a.users) && e.couple == some a.couple.id &&
      e.created_year == a.year)

/-- The same queryset restricted to `sentiment_score__isnull=False`. -/
def CoupleAnalytics.scoredEntries (a : CoupleAnalytics) (db : DB) : List Entry :=
  db.entries.filter (fun e =>
    decide (e.user ∈ a.users) && e.couple == some a.couple.id &&
      e.created_year == a.year && e.sentiment_score.isSome)

/-- Embeds `couple_average_sentiment`: `aggregate(avg=Avg('sentiment_score'))` over
the scored queryset — `None` when no rows. -/
def CoupleAnalytics.coupleAverageSentiment (a : CoupleAnalytics) (db : DB) : Option ℚ :=
  let l := a.scoredEntries db
  if l.isEmpty then none
  else some ((l.map (fun e => e.sentiment_score.getD 0)).sum / l.length)

/-- One row of `couple_monthly_sentiment` (`TruncMonth` group). -/
structure MonthScore where
  month : Nat
  avg_score : ℚ
deriving DecidableEq, Repr

/-- Embeds `couple_monthly_sentiment`: average sentiment per month of the year,
months without scored entries omitted, ordered by month. -/
def CoupleAnalytics.coupleMonthlySentiment (a : CoupleAnalytics) (db : DB) :
    List MonthScore :=
  (List.range 12).filterMap (fun i =>
    let m := i + 1
    let es := (a.scoredEntries db).filter (fun e => e.created_month == m)
    if es.isEmpty then none
    else some ⟨m, (es.map (fun e => e.sentiment_score.getD 0)).sum / es.length⟩)

/-- Embeds `happiest_month`: Python `max(monthly, key=...)` — `None` on the empty
list, otherwise the first month attaining the maximal average. -/
def CoupleAnalytics.happiestMonth (a : CoupleAnalytics) (db : DB) : Option MonthScore :=
  match a.coupleMonthlySentiment db with
  | [] => none
  | x :: xs =>
    some (xs.foldl (fun best c => if best.avg_score < c.avg_score then c else best) x)

/-- The prompt-id set `values_list('prompt_id', flat=True)` of one member's
entries in this vault and year.  `filter(user=None)` matches nothing, since
`Entry.user` is non-null. -/
def CoupleAnalytics.promptIdsFor (a : CoupleAnalytics) (db : DB) (u : Option Nat) :
    List Nat :=
  match u with
  | none => []
  | some uid =>
    ((db.entries.filter (fun e =>
      e.user == uid && e.couple == some a.couple.id && e.created_year == a.year)).map
      (fun e => e.prompt)).dedup

/-- The hydration lookup `Entry.objects.get(user=..., prompt_id=...,
couple=self.couple)` of `get_paired_entries` (no year filter in the source;
the (user, prompt, couple) uniqueness constraint makes the row unique). -/
def CoupleAnalytics.findEntryOf (a : CoupleAnalytics) (db : DB) (uid pid : Nat) :
    Option Entry :=
  db.entries.find? (fun e =>
    e.user == uid && e.prompt == pid && e.couple == some a.couple.id)

/-- Embeds `get_paired_entries`: the prompt ids answered by both members in this
vault and year, hydrated into (prompt, entry1, entry2) triples. -/
def CoupleAnalytics.pairedEntries (a : CoupleAnalytics) (db : DB) :
    List (Prompt × Entry × Entry) :=
  let ids1 := a.promptIdsFor db (some a.couple.user1)
  let ids2 := a.promptIdsFor db a.couple.user2
  let shared := ids1.filter (fun pid => decide (pid ∈ ids2))
  shared.filterMap (fun pid =>
    (db.prompts.find? (fun p => p.id == pid)).bind (fun p =>
      (a.findEntryOf db a.couple.user1 pid).bind (fun e1 =>
        (a.couple.user2.bind (fun u2 => a.findEntryOf db u2 pid)).map
          (fun e2 => (p, e1, e2)))))

/-- The `scored_pairs` filter of `sentiment_sync_score`: paired entries
where both sides carry a sentiment score. -/
def CoupleAnalytics.scoredPairs (a : CoupleAnalytics) (db : DB) : List (ℚ × ℚ) :=
  (a.pairedEntries db).filterMap (fun t =>
    t.2.1.sentiment_score.bind (fun s1 =>
      t.2.2.sentiment_score.map (fun s2 => (s1, s2))))

/-- Embeds `sentiment_sync_score`: `None` without paired entries or scored pairs,
otherwise `round(1 - avg(|s1 - s2|)/2, 3)`. -/
def CoupleAnalytics.sentimentSyncScore (a : CoupleAnalytics) (db : DB) : Option ℚ :=
  let paired := a.pairedEntries db
  if paired.isEmpty then none
  else
    let scored := a.scoredPairs db
    if scored.isEmpty then none
    else
      let avgDiff := (scored.map (fun s => |s.1 - s.2|)).sum / scored.length
      some (round3 (1 - avgDiff / 2))

/-- Embeds `shared_joy_moments(threshold=0.3)`: paired entries where both scores
(`None` coerced to 0 by `or 0`) reach the threshold, sorted by combined
score descending. -/
def CoupleAnalytics.sharedJoyMoments (a : CoupleAnalytics) (db : DB) (threshold : ℚ) :
    List (Prompt × Entry × Entry) :=
  let joyful := (a.pairedEntries db).filter (fun t =>
    decide (threshold ≤ t.2.1.sentiment_score.getD 0) &&
      decide (threshold ≤ t.2.2.sentiment_score.getD 0))
  sortBy (fun t1 t2 =>
    decide (t2.2.1.sentiment_score.getD 0 + t2.2.2.sentiment_score.getD 0 ≤
      t1.2.1.sentiment_score.getD 0 + t1.2.2.sentiment_score.getD 0)) joyful

/-- Embeds `tough_days_together(threshold=-0.2)`: paired entries where both scores
(`None` coerced to 0) are at or below the threshold. -/
def CoupleAnalytics.toughDaysTogether (a : CoupleAnalytics) (db : DB) (threshold : ℚ) :
    List (Prompt × Entry × Entry) :=
  (a.pairedEntries db).filter (fun t =>
    decide (t.2.1.sentiment_score.getD 0 ≤ threshold) &&
      decide (t.2.2.sentiment_score.getD 0 ≤ threshold))

/-- One `emotional_support_moments` record.  `supporter`/`supported` mirror
`self.user1`/`self.user2`, so the supported side is nullable in the source
(unreachable while pairing is required for paired entries). -/
structure SupportMoment where
  prompt : Prompt
  supporter : Option Nat
  supported : Option Nat
  gap : ℚ
deriving DecidableEq, Repr

/-- Embeds `emotional_support_moments(gap_threshold=0.5)`: paired entries whose
coerced scores differ by at least the gap; the higher-scoring member is the
supporter. -/
def CoupleAnalytics.emotionalSupportMoments (a : CoupleAnalytics) (db : DB)
    (gapTh : ℚ) : List SupportMoment :=
  (a.pairedEntries db).filterMap (fun t =>
    let s1 := t.2.1.sentiment_score.getD 0
    let s2 := t.2.2.sentiment_score.getD 0
    if gapTh ≤ |s1 - s2| then
      if s2 < s1 then some ⟨t.1, some a.couple.user1, a.couple.user2, |s1 - s2|⟩
      else some ⟨t.1, a.couple.user2, some a.couple.user1, |s1 - s2|⟩
    else none)

/-- Embeds `total_words_together`: `Sum('word_count')` over the combined queryset,
`or 0` on the empty aggregate. -/
def CoupleAnalytics.totalWordsTogether (a : CoupleAnalytics) (db : DB) : Nat :=
  ((a.yearEntries db).map (fun e => e.word_count)).sum

/-- Embeds `response_rate`: paired-prompt count over the number of prompts with
`active_date__year == year`, rounded to 3 decimals; 0.0 when no prompts. -/
def CoupleAnalytics.responseRate (a : CoupleAnalytics) (db : DB) : ℚ :=
  let total := (db.prompts.filter (fun p => p.active_date.year == a.year)).length
  if total = 0 then 0
  else round3 ((a.pairedEntries db).length / total)

/-- One `top_vibe_together` group: a prompt category with its combined
response count. -/
structure VibeCount where
  category : String
  count : Nat
deriving DecidableEq, Repr

/-- The `prompt__category` join key of an entry (present by foreign-key
integrity). -/
def entryCategory (db : DB) (e : Entry) : Option String :=
  (db.prompts.find? (fun p => p.id == e.prompt)).map (fun p => p.category)

/-- Embeds `top_vibe_together`: combined response count per category, descending. -/
def CoupleAnalytics.topVibeTogether (a : CoupleAnalytics) (db : DB) : List VibeCount :=
  let es := a.yearEntries db
  let cats := (es.filterMap (entryCategory db)).dedup
  let counts := cats.map (fun c =>
    VibeCount.mk c ((es.filter (fun e => entryCategory db e == some c)).length))
  sortBy (fun v1 v2 => decide (v2.count ≤ v1.count)) counts

/-- Embeds `longest_combined_entry`: `None` without paired entries, otherwise
Python `max(paired, key=combined words)` (first maximum wins). -/
def CoupleAnalytics.longestCombinedEntry (a : CoupleAnalytics) (db : DB) :
    Option (Prompt × Entry × Entry) :=
  match a.pairedEntries db with
  | [] => none
  | t :: ts =>
    some (ts.foldl (fun best x =>
      if best.2.1.word_count + best.2.2.word_count <
          x.2.1.word_count + x.2.2.word_count then x else best) t)

/-- The `generate_wrapped_data` summary object (§6 contract).  Usernames
are represented by the member ids. -/
structure WrappedData where
  year : Nat
  users : List Nat
  couple_sentiment : Option ℚ
  happiest_month : Option MonthScore
  sync_score : Option ℚ
  shared_joy_count : Nat
  top_joy_moment : List (Prompt × Entry × Entry)
  tough_days_count : Nat
  support_moments : Nat
  total_words : Nat
  response_rate : ℚ
  top_vibes : List VibeCount
  most_words_prompt : Option (Prompt × Entry × Entry)
  monthly_sentiment : List MonthScore
deriving DecidableEq, Repr

/-- Embeds `generate_wrapped_data`: assembles every aggregate with the source's
default thresholds.  On a solo vault `self.user2.username` dereferences
`None` and raises `AttributeError`; that failure is modelled by `none`. -/
def CoupleAnalytics.generateWrappedData (a : CoupleAnalytics) (db : DB) :
    Option WrappedData :=
  match a.couple.user2 with
  | none => none
  | some u2 => some
    { year := a.year
      users := [a.couple.user1, u2]
      couple_sentiment := a.coupleAverageSentiment db
      happiest_month := a.happiestMonth db
      sync_score := a.sentimentSyncScore db
      shared_joy_count := (a.sharedJoyMoments db (3/10)).length
      top_joy_moment := (a.sharedJoyMoments db (3/10)).take 1
      tough_days_count := (a.toughDaysTogether db (-(1/5))).length
      support_moments := (a.emotionalSupportMoments db (1/2)).length
      total_words := a.totalWordsTogether db
      response_rate := a.responseRate db
      top_vibes := (a.topVibeTogether db).take 3
      most_words_prompt := a.longestCombinedEntry db
      monthly_sentiment := a.coupleMonthlySentiment db }

/-- Gregorian leap-year rule. -/
def isLeap (y : Nat) : Bool :=
  y % 4 == 0 && (y % 100 != 0 || y % 400 == 0)

/-- Number of days of a month in a given year. -/
def daysInMonth (y m : Nat) : Nat :=
  if m == 2 then (if isLeap y then 29 else 28)
  else if m == 4 || m == 6 || m == 9 || m == 11 then 30
  else 31

/-- The calendar day after `d`. -/
def Date.next (d : Date) : Date :=
  if d.day < daysInMonth d.year d.month then ⟨d.year, d.month, d.day + 1⟩
  else if d.month < 12 then ⟨d.year, d.month + 1, 1⟩
  else ⟨d.year + 1, 1, 1⟩

/-- The calendar day before `d`. -/
def Date.prev (d : Date) : Date :=
  if 1 < d.day then ⟨d.year, d.month, d.day - 1⟩
  else if 1 < d.month then ⟨d.year, d.month - 1, daysInMonth d.year (d.month - 1)⟩
  else ⟨d.year - 1, 12, 31⟩

/-- The local calendar date of an instant given as a UTC date plus a minute
of day, under a zone offset in minutes (zone offsets are within one day, so
the local date is the UTC date or one of its neighbours). -/
def localDate (utcDate : Date) (utcMinute : Nat) (offset : Int) : Date :=
  let t : Int := utcMinute + offset
  if t < 0 then utcDate.prev
  else if 1440 ≤ t then utcDate.next
  else utcDate

/-- The fold computing the first prompt with minimal `active_date`
(`order_by('active_date')` then `.first()`; `active_date` is unique so
ties cannot occur). -/
def minFoldDate (p0 : Prompt) (ps : List Prompt) : Prompt :=
  ps.foldl (fun best q => if Date.ltb q.active_date best.active_date then q else best) p0

/-- Models `.first()` of the prompts ordered by `active_date` ascending. -/
def minByActiveDate : List Prompt → Option Prompt
  | [] => none
  | p :: ps => some (minFoldDate p ps)

/-- Modelled from the spec: `Prompt.get_todays_prompt(timezone)` (§4.2).
The timezone-aware variant called by `views.daily_journal` is absent from
the stale `src/core/models.py` (whose copy takes no timezone argument);
the month/day filter and the earliest-`active_date` pick follow that copy,
and the resolution of "today" in the given IANA zone follows the spec.
`tzdb` is the IANA timezone database as an offset table (minutes east of
UTC); the clock is passed as a UTC date plus minute of day. -/
def getTodaysPrompt (tzdb : String → Int) (prompts : List Prompt)
    (utcDate : Date) (utcMinute : Nat) (tz : String) : Option Prompt :=
  let today := localDate utcDate utcMinute (tzdb tz)
  minByActiveDate (prompts.filter (fun p =>
    p.active_date.month == today.month && p.active_date.day == today.day))

/-- Embeds `core.models.Spark`: one activity card of the immutable catalog. -/
structure Spark where
  id : Nat
  text : String
  category : String
  option_b : String
  vibe : String
  subtitle : String
deriving DecidableEq, Repr

/-- Modelled from the spec: `SparkPreference` (§3) — the per (user, spark)
archived flag.  The model class is absent from the stale
`src/core/models.py` although `views.py` imports and queries it. -/
structure SparkPreference where
  user : Nat
  spark : Nat
  is_archived : Bool
deriving DecidableEq, Repr

/-- Whether the user archived the spark: a `SparkPreference` row for
(user, spark) with the archived flag set. -/
def sparkArchived (prefs : List SparkPreference) (user sid : Nat) : Bool :=
  prefs.any (fun pr => pr.user == user && pr.spark == sid && pr.is_archived)

/-- The catalog filtered to the requested category and, when given, vibe
(the base queryset of `Spark.get_random`). -/
def sparkPool (sparks : List Spark) (category : String) (vibe : Option String) :
    List Spark :=
  sparks.filter (fun s => s.category == category &&
    (match vibe with
     | none => true
     | some v => s.vibe == v))

/-- The pool additionally excluding sparks archived by the user (when a
user is given). -/
def sparkPoolNonArchived (sparks : List Spark) (prefs : List SparkPreference)
    (category : String) (vibe : Option String) (user : Option Nat) : List Spark :=
  match user with
  | none => sparkPool sparks category vibe
  | some u => (sparkPool sparks category vibe).filter
      (fun s => !(sparkArchived prefs u s.id))

/-- The pool additionally excluding the recently shown ids. -/
def sparkPoolFresh (sparks : List Spark) (prefs : List SparkPreference)
    (category : String) (vibe : Option String) (user : Option Nat)
    (excludeIds : List Nat) : List Spark :=
  (sparkPoolNonArchived sparks prefs category vibe user).filter
    (fun s => decide (s.id ∉ excludeIds))

/-- Modelled from the spec: `Spark.get_random(category, vibe?, user?,
exclude_ids?)` (§4.4) — the variant with archive and recency exclusions
called by `views.spark_card` and `views.spark_next` is absent from the
stale `src/core/models.py` (whose copy filters only by category and vibe).
The random `order_by('?').first()` is modelled by the choice index `r`.
Exclusions are best-effort: when they empty the candidate pool, the
recency exclusion is dropped first and the archive exclusion after it, so
that the rotation never serves an archived spark while a non-archived
candidate exists (§8) and falls back rather than returning none (§4.4). -/
def getRandomSpark (sparks : List Spark) (prefs : List SparkPreference)
    (category : String) (vibe : Option String) (user : Option Nat)
    (excludeIds : List Nat) (r : Nat) : Option Spark :=
  let pool2 := sparkPoolFresh sparks prefs category vibe user excludeIds
  let pool1 := sparkPoolNonArchived sparks prefs category vibe user
  let pool0 := sparkPool sparks category vibe
  let pool := if !pool2.isEmpty then pool2
    else if !pool1.isEmpty then pool1
    else pool0
  pool.get? (r % pool.length)

/-- Sample vault for the concrete analytics checks: users 10 and 20. -/
def samplePairCouple : Couple := ⟨1, 10, some 20, "c", false⟩

/-- Analytics scope over the sample vault for year 2025. -/
def samplePairAnalytics : CoupleAnalytics := ⟨samplePairCouple, 2025⟩

/-- Sample store holding one paired entry for prompt 7 whose two sides
carry the given sentiment scores. -/
def samplePairDB (s1 s2 : Option ℚ) : DB :=
  ⟨[samplePairCouple], [⟨7, "p", "wholesome", ⟨2025, 1, 2⟩⟩],
    [⟨10, 7, some 1, "a", 1, s1, 2025, 1⟩, ⟨20, 7, some 1, "b", 1, s2, 2025, 1⟩]⟩

/-- Sample store with ten prompts active in 2025 of which the first four
are answered by both members of the sample vault. -/
def sampleTenDB : DB :=
  ⟨[samplePairCouple],
    (List.range 10).map (fun i => ⟨i + 1, "p", "wholesome", ⟨2025, 1, i + 1⟩⟩),
    ((List.range 4).map (fun i => ⟨10, i + 1, some 1, "a", 1, none, 2025, 1⟩)) ++
      ((List.range 4).map (fun i => ⟨20, i + 1, some 1, "b", 1, none, 2025, 1⟩))⟩

-- ==========================================================================
-- Theorems
-- ==========================================================================

theorem Date.leb_of_not_ltb {a b : Date} (h : Date.ltb a b = false) :
    Date.leb b a = true := by
  simp only [Date.ltb, Bool.or_eq_false_iff, Bool.and_eq_false_iff,
    decide_eq_false_iff_not, beq_eq_false_iff_ne, ne_eq] at h
  simp only [Date.leb, Bool.or_eq_true, Bool.and_eq_true, decide_eq_true_eq,
    beq_iff_eq]
  omega

/-- C4.  `join_with_code` fails with `InvalidCode` when no vault carries the
code, `AlreadyPaired` when the matching vault's `member2` is already set,
and `SelfJoin` when the joiner is the matching solo vault's creator; every
failure leaves the couples table unchanged, and on success `member2` is set
to the joining user and persisted, moving the vault from SOLO to PAIRED. -/
theorem join_with_code_cases (couples : List Couple) (user : Nat) (code : String) :
    ((∀ c ∈ couples, c.invite_code ≠ code) →
      joinWithCode couples user code = ((none, some .invalidCode), couples)) ∧
    (∀ c, couples.find? (fun c => c.invite_code == code) = some c →
      (∀ u2, c.user2 = some u2 →
        joinWithCode couples user code = ((none, some .alreadyPaired), couples)) ∧
      (c.user2 = none → c.user1 = user →
        joinWithCode couples user code = ((none, some .selfJoin), couples)) ∧
      (c.user2 = none → c.user1 ≠ user →
        joinWithCode couples user code =
          ((some { c with user2 := some user }, none),
            couples.map (fun d => if d.id == c.id then { d with user2 := some user } else d)) ∧
        ({ c with user2 := some user } : Couple).user2 = some user)) := by
  constructor
  · intro h
    have hfind : couples.find? (fun c => c.invite_code == code) = none := by
      rw [List.find?_eq_none]
      intro c hc
      simpa using h c hc
    simp [joinWithCode, hfind]
  · intro c hfind
    refine ⟨?_, ?_, ?_⟩
    · intro u2 hu2
      simp [joinWithCode, hfind, hu2]
    · intro hu2 hu1
      simp [joinWithCode, hfind, hu2, hu1]
    · intro hu2 hu1
      refine ⟨?_, rfl⟩
      simp [joinWithCode, hfind, hu2, hu1]

/-- Witness for C4: a concrete run of every branch of
`join_with_code_cases`. -/
theorem join_with_code_cases_witness :
    joinWithCode [⟨1, 5, none, "abc", false⟩] 7 "zzz" =
      ((none, some .invalidCode), [⟨1, 5, none, "abc", false⟩]) ∧
    joinWithCode [⟨1, 5, some 6, "abc", false⟩] 7 "abc" =
      ((none, some .alreadyPaired), [⟨1, 5, some 6, "abc", false⟩]) ∧
    joinWithCode [⟨1, 5, none, "abc", false⟩] 5 "abc" =
      ((none, some .selfJoin), [⟨1, 5, none, "abc", false⟩]) ∧
    joinWithCode [⟨1, 5, none, "abc", false⟩] 7 "abc" =
      ((some ⟨1, 5, some 7, "abc", false⟩, none), [⟨1, 5, some 7, "abc", false⟩]) := by
  refine ⟨?_, ?_, ?_, ?_⟩
  · exact (join_with_code_cases [⟨1, 5, none, "abc", false⟩] 7 "zzz").1 (by decide)
  · exact ((join_with_code_cases [⟨1, 5, some 6, "abc", false⟩] 7 "abc").2
      ⟨1, 5, some 6, "abc", false⟩ (by decide)).1 6 rfl
  · exact (((join_with_code_cases [⟨1, 5, none, "abc", false⟩] 5 "abc").2
      ⟨1, 5, none, "abc", false⟩ (by decide)).2.1 rfl rfl)
  · exact ((((join_with_code_cases [⟨1, 5, none, "abc", false⟩] 7 "abc").2
      ⟨1, 5, none, "abc", false⟩ (by decide)).2.2 rfl (by decide)).1)

theorem find?_append_nomatch {α : Type} (p : α → Bool) (l : List α) (a : α)
    (h : p a = false) : (l ++ [a]).find? p = l.find? p := by
  induction l with
  | nil => simp [List.find?, h]
  | cons x xs ih =>
    by_cases hx : p x
    · simp [List.find?, hx]
    · simp only [Bool.not_eq_true] at hx
      simp [List.find?, hx, ih]

/-- Appending the submitting user's own entry does not change the partner
lookup, because the partner is a different user. -/
theorem getPartnerEntry_append_own (db : DB) (user p2 nowY nowM : Nat)
    (couple : Couple) (prompt : Prompt) (content : String)
    (hmem : couple.includesUser user = true)
    (hp2 : couple.user2 = some p2)
    (hne : p2 ≠ couple.user1) :
    getPartnerEntryForPrompt
        { db with entries := db.entries ++ [mkEntry user prompt couple content nowY nowM] }
        user prompt couple
      = getPartnerEntryForPrompt db user prompt couple := by
  have hpu : ∃ pu, couple.getPartner user = some pu ∧ pu ≠ user := by
    simp only [Couple.includesUser, Bool.or_eq_true, beq_iff_eq] at hmem
    rcases hmem with h1 | h2
    · exact ⟨p2, by simp [Couple.getPartner, h1, hp2], by rw [h1]; exact hne⟩
    · have huser : user = p2 := by rw [hp2] at h2; exact (Option.some_inj.mp h2.symm)
      have hne1 : user ≠ couple.user1 := huser ▸ hne
      exact ⟨couple.user1, by simp [Couple.getPartner, hne1, h2], fun h => hne1 h.symm⟩
  rcases hpu with ⟨pu, hget, hpune⟩
  have hpred : (fun e : Entry =>
      e.user == pu && e.prompt == prompt.id && e.couple == some couple.id)
      (mkEntry user prompt couple content nowY nowM) = false := by
    simp [mkEntry, hpune.symm]
  simp only [getPartnerEntryForPrompt, hmem, if_true, hget]
  exact find?_append_nomatch _ _ _ hpred

/-- C1.  For a paired, non-ended vault with today's prompt resolved: when
the user has no prior entry for (user, prompt, vault), `submit_entry`
appends exactly one entry (with recomputed word count) and returns
`UNLOCKED` when the partner's entry already exists, `WAITING` otherwise;
when a prior entry exists the submission is rejected as a duplicate and
the store is unchanged.  (`hne` is the vault invariant `member1 ≠ member2`,
which holds for every reachable vault.) -/
theorem submit_entry_reveal (db : DB) (user p2 nowY nowM : Nat) (couple : Couple)
    (prompt : Prompt) (content : String)
    (hmem : couple.includesUser user = true)
    (hp2 : couple.user2 = some p2)
    (hne : p2 ≠ couple.user1)
    (hend : couple.is_ended = false)
    (hform : formValid content = true) :
    (getUserEntryForPrompt db user prompt couple = none →
      submitEntry db user (some couple) (some prompt) content nowY nowM =
        ((if (getPartnerEntryForPrompt db user prompt couple).isSome then
            .created .unlocked else .created .waiting),
          { db with entries := db.entries ++ [mkEntry user prompt couple content nowY nowM] })) ∧
    (∀ e, getUserEntryForPrompt db user prompt couple = some e →
      submitEntry db user (some couple) (some prompt) content nowY nowM = (.duplicate, db)) := by
  have hs : couple.user2.isSome = true := by rw [hp2]; rfl
  constructor
  · intro hnone
    have happ := getPartnerEntry_append_own db user p2 nowY nowM couple prompt content
      hmem hp2 hne
    simp only [submitEntry, hmem, hs, Bool.and_self, Bool.not_true, hend,
      Bool.false_eq_true, if_false, hnone, hform, if_true, happ]
    by_cases hpe : (getPartnerEntryForPrompt db user prompt couple).isSome
    · simp [hpe]
    · simp only [Bool.not_eq_true] at hpe
      simp [hpe]
  · intro e he
    simp [submitEntry, hmem, hs, hend, he]

/-- Witness for C1: in a vault pairing users 5 and 6 with no entries yet,
user 5's submission yields `WAITING` and appends the single entry; after
the partner answers, a second submission by user 5 is rejected as a
duplicate with the store unchanged. -/
theorem submit_entry_reveal_witness :
    (submitEntry ⟨[⟨1, 5, some 6, "abc", false⟩], [⟨3, "q", "wholesome", ⟨2025, 3, 15⟩⟩], []⟩
        5 (some ⟨1, 5, some 6, "abc", false⟩) (some ⟨3, "q", "wholesome", ⟨2025, 3, 15⟩⟩)
        "hello there" 2025 3 =
      (.created .waiting,
        ⟨[⟨1, 5, some 6, "abc", false⟩], [⟨3, "q", "wholesome", ⟨2025, 3, 15⟩⟩],
          [⟨5, 3, some 1, "hello there", 2, none, 2025, 3⟩]⟩)) ∧
    (submitEntry ⟨[⟨1, 5, some 6, "abc", false⟩], [⟨3, "q", "wholesome", ⟨2025, 3, 15⟩⟩],
          [⟨5, 3, some 1, "hello there", 2, none, 2025, 3⟩]⟩
        5 (some ⟨1, 5, some 6, "abc", false⟩) (some ⟨3, "q", "wholesome", ⟨2025, 3, 15⟩⟩)
        "again" 2025 3 =
      (.duplicate,
        ⟨[⟨1, 5, some 6, "abc", false⟩], [⟨3, "q", "wholesome", ⟨2025, 3, 15⟩⟩],
          [⟨5, 3, some 1, "hello there", 2, none, 2025, 3⟩]⟩)) := by
  constructor
  · have h := (submit_entry_reveal ⟨[⟨1, 5, some 6, "abc", false⟩],
      [⟨3, "q", "wholesome", ⟨2025, 3, 15⟩⟩], []⟩ 5 6 2025 3
      ⟨1, 5, some 6, "abc", false⟩ ⟨3, "q", "wholesome", ⟨2025, 3, 15⟩⟩ "hello there"
      (by decide) rfl (by decide) rfl (by decide)).1 rfl
    rw [h]; decide
  · exact (submit_entry_reveal ⟨[⟨1, 5, some 6, "abc", false⟩],
      [⟨3, "q", "wholesome", ⟨2025, 3, 15⟩⟩],
      [⟨5, 3, some 1, "hello there", 2, none, 2025, 3⟩]⟩ 5 6 2025 3
      ⟨1, 5, some 6, "abc", false⟩ ⟨3, "q", "wholesome", ⟨2025, 3, 15⟩⟩ "again"
      (by decide) rfl (by decide) rfl (by decide)).2
      ⟨5, 3, some 1, "hello there", 2, none, 2025, 3⟩ rfl

theorem mem_insertBy {α : Type} (r : α → α → Bool) (x a : α) (l : List α) :
    a ∈ insertBy r x l ↔ a = x ∨ a ∈ l := by
  induction l with
  | nil => simp [insertBy]
  | cons y ys ih =>
    by_cases h : r x y
    · simp [insertBy, h]
    · simp only [Bool.not_eq_true] at h
      simp only [insertBy, h, Bool.false_eq_true, if_false, List.mem_cons, ih]
      tauto

theorem mem_sortBy {α : Type} (r : α → α → Bool) (a : α) (l : List α) :
    a ∈ sortBy r l ↔ a ∈ l := by
  induction l with
  | nil => simp [sortBy]
  | cons x xs ih => simp [sortBy, mem_insertBy, ih]

/-- C5.  For an ended (paired) vault, `submit_entry` rejects the write as
read-only and leaves the store unchanged, while `entry_history` ignores
the ended flag entirely and still lists every existing entry of the user
in that vault. -/
theorem ended_vault_read_only (db : DB) (user p2 nowY nowM : Nat) (couple : Couple)
    (todaysPrompt : Option Prompt) (content : String)
    (hmem : couple.includesUser user = true)
    (hp2 : couple.user2 = some p2)
    (hend : couple.is_ended = true) :
    submitEntry db user (some couple) todaysPrompt content nowY nowM = (.readOnly, db) ∧
    (∀ b, entryHistory db user { couple with is_ended := b } = entryHistory db user couple) ∧
    (∀ e ∈ db.entries, e.user = user → e.couple = some couple.id →
      ∃ item ∈ entryHistory db user couple, item.user_entry = e) := by
  have hs : couple.user2.isSome = true := by rw [hp2]; rfl
  refine ⟨?_, ?_, ?_⟩
  · simp [submitEntry, hmem, hs, hend]
  · intro b; rfl
  · intro e he hu hc
    have hf : e ∈ db.entries.filter (fun e =>
        e.user == user && e.couple == some couple.id) := by
      rw [List.mem_filter]
      exact ⟨he, by simp [hu, hc]⟩
    have hsrt : e ∈ sortBy (fun a b =>
        Date.leb (promptDateOf db b.prompt) (promptDateOf db a.prompt))
        (db.entries.filter (fun e => e.user == user && e.couple == some couple.id)) :=
      (mem_sortBy _ _ _).mpr hf
    exact ⟨_, List.mem_map_of_mem _ hsrt, rfl⟩

/-- Witness for C5: an ended vault with one stored entry rejects a new
submission as read-only, and its history still lists the entry. -/
theorem ended_vault_read_only_witness :
    submitEntry ⟨[⟨1, 5, some 6, "abc", true⟩], [⟨3, "q", "wholesome", ⟨2025, 3, 15⟩⟩],
        [⟨5, 3, some 1, "hi", 1, none, 2025, 3⟩]⟩
      5 (some ⟨1, 5, some 6, "abc", true⟩) (some ⟨3, "q", "wholesome", ⟨2025, 3, 15⟩⟩)
      "more" 2025 3 =
      (.readOnly, ⟨[⟨1, 5, some 6, "abc", true⟩], [⟨3, "q", "wholesome", ⟨2025, 3, 15⟩⟩],
        [⟨5, 3, some 1, "hi", 1, none, 2025, 3⟩]⟩) ∧
    ∃ item ∈ entryHistory ⟨[⟨1, 5, some 6, "abc", true⟩],
        [⟨3, "q", "wholesome", ⟨2025, 3, 15⟩⟩],
        [⟨5, 3, some 1, "hi", 1, none, 2025, 3⟩]⟩ 5 ⟨1, 5, some 6, "abc", true⟩,
      item.user_entry = (⟨5, 3, some 1, "hi", 1, none, 2025, 3⟩ : Entry) := by
  constructor
  · exact (ended_vault_read_only ⟨[⟨1, 5, some 6, "abc", true⟩],
      [⟨3, "q", "wholesome", ⟨2025, 3, 15⟩⟩], [⟨5, 3, some 1, "hi", 1, none, 2025, 3⟩]⟩
      5 6 2025 3 ⟨1, 5, some 6, "abc", true⟩ (some ⟨3, "q", "wholesome", ⟨2025, 3, 15⟩⟩)
      "more" (by decide) rfl rfl).1
  · exact (ended_vault_read_only ⟨[⟨1, 5, some 6, "abc", true⟩],
      [⟨3, "q", "wholesome", ⟨2025, 3, 15⟩⟩], [⟨5, 3, some 1, "hi", 1, none, 2025, 3⟩]⟩
      5 6 2025 3 ⟨1, 5, some 6, "abc", true⟩ (some ⟨3, "q", "wholesome", ⟨2025, 3, 15⟩⟩)
      "more" (by decide) rfl rfl).2.2
      ⟨5, 3, some 1, "hi", 1, none, 2025, 3⟩ (by simp) rfl rfl

/-- Auxiliary invariant carried through the lifecycle induction: primary
keys stay distinct, and a set second member is never the first member. -/
theorem reachable_couples_invariant (cs : List Couple) (h : ReachableCouples cs) :
    (cs.map (fun c => c.id)).Nodup ∧
      ∀ c ∈ cs, ∀ u2, c.user2 = some u2 → c.user1 ≠ u2 := by
  induction h with
  | nil => simp
  | create cs id user code _ hfresh ih =>
    refine ⟨?_, ?_⟩
    · rw [List.map_append, List.nodup_append]
      refine ⟨ih.1, by simp, ?_⟩
      intro x hx
      simp only [List.mem_map] at hx
      rcases hx with ⟨c, hc, hcx⟩
      simp only [mkSoloCouple, List.map_cons, List.map_nil, List.mem_singleton]
      intro hx2
      exact hfresh c hc (hcx.symm ▸ hx2 ▸ rfl)
    · intro c hc u2 hu2
      rcases List.mem_append.mp hc with h1 | h2
      · exact ih.2 c h1 u2 hu2
      · simp only [List.mem_singleton] at h2
        subst h2
        simp [mkSoloCouple] at hu2
  | join cs user code _ ih =>
    unfold joinWithCode
    rcases hfind : cs.find? (fun c => c.invite_code == code) with _ | c0
    · simpa [hfind] using ih
    · have hc0 : c0 ∈ cs := List.mem_of_find?_eq_some hfind
      by_cases h2 : c0.user2.isSome
      · simpa [hfind, h2] using ih
      · by_cases h1 : c0.user1 == user
        · simpa [hfind, h2, h1] using ih
        · simp only [hfind, h2, Bool.false_eq_true, if_false, h1]
          constructor
          · have : (cs.map (fun d =>
                if d.id == c0.id then { d with user2 := some user } else d)).map
                (fun c => c.id) = cs.map (fun c => c.id) := by
              rw [List.map_map]
              refine List.map_congr_left ?_
              intro d _
              simp only [Function.comp_apply]
              split <;> rfl
            rw [this]
            exact ih.1
          · intro c hc u2 hu2
            rcases List.mem_map.mp hc with ⟨d, hd, hdc⟩
            by_cases hid : d.id == c0.id
            · have hdeq : d = c0 :=
                List.inj_on_of_nodup_map ih.1 hd hc0 (beq_iff_eq.mp hid)
              subst hdeq
              rw [hid] at hdc
              simp only [if_true] at hdc
              subst hdc
              simp only at hu2
              have hu2u : u2 = user := by
                simpa using hu2.symm
              subst hu2u
              simpa using h1
            · simp only [Bool.not_eq_true] at hid
              rw [hid] at hdc
              simp only [Bool.false_eq_true, if_false] at hdc
              subst hdc
              exact ih.2 d hd u2 hu2
  | setEnded cs cid b _ ih =>
    constructor
    · have : (cs.map (fun c =>
          if c.id == cid then { c with is_ended := b } else c)).map
          (fun c => c.id) = cs.map (fun c => c.id) := by
        rw [List.map_map]
        refine List.map_congr_left ?_
        intro d _
        simp only [Function.comp_apply]
        split <;> rfl
      rw [this]
      exact ih.1
    · intro c hc u2 hu2
      rcases List.mem_map.mp hc with ⟨d, hd, hdc⟩
      by_cases hid : d.id == cid
      · rw [hid] at hdc
        simp only [if_true] at hdc
        subst hdc
        exact ih.2 d hd u2 (by simpa using hu2)
      · simp only [Bool.not_eq_true] at hid
        rw [hid] at hdc
        simp only [Bool.false_eq_true, if_false] at hdc
        subst hdc
        exact ih.2 d hd u2 hu2

/-- C9.  Every vault reachable through the source's lifecycle operations
(created solo by `create_vault`, paired only by `join_with_code`, with
metadata updates never touching the member slots) satisfies
`member1 ≠ member2` whenever `member2` is set. -/
theorem vault_members_distinct (cs : List Couple) (h : ReachableCouples cs) :
    ∀ c ∈ cs, ∀ u2, c.user2 = some u2 → c.user1 ≠ u2 :=
  (reachable_couples_invariant cs h).2

/-- Witness for C9: create a vault for user 5, let user 7 join it with the
invite code; the paired vault has distinct members. -/
theorem vault_members_distinct_witness :
    (⟨1, 5, some 7, "abc", false⟩ : Couple).user1 ≠ 7 := by
  have hreach : ReachableCouples (joinWithCode [mkSoloCouple 1 5 "abc"] 7 "abc").2 :=
    ReachableCouples.join _ 7 "abc"
      (by simpa using ReachableCouples.create [] 1 5 "abc" ReachableCouples.nil (by simp))
  have hmem : (⟨1, 5, some 7, "abc", false⟩ : Couple) ∈
      (joinWithCode [mkSoloCouple 1 5 "abc"] 7 "abc").2 := by decide
  exact vault_members_distinct _ hreach _ hmem 7 rfl

theorem round3_int (q : ℚ) (n : ℤ) (h : q * 1000 = (n : ℚ)) :
    round3 q = (n : ℚ) / 1000 := by
  unfold round3 pyRoundZ
  rw [h]
  norm_num

/-- C7.  The sentiment sync score is computed over exactly the paired
entries where both sides carry a sentiment score, as 1 minus half the
average absolute difference, rounded to three decimals, and is none when
no scored pairs exist; scores (0.5, 0.5) yield 1.0, (1.0, -1.0) yield 0.0
and (0.2, -0.3) yield 0.75. -/
theorem sentiment_sync_formula :
    (∀ (a : CoupleAnalytics) (db : DB),
      a.sentimentSyncScore db =
        if (a.scoredPairs db).isEmpty then none
        else some (round3 (1 -
          ((a.scoredPairs db).map (fun s => |s.1 - s.2|)).sum /
            ((a.scoredPairs db).length : ℚ) / 2))) ∧
    samplePairAnalytics.sentimentSyncScore (samplePairDB (some (1/2)) (some (1/2))) =
      some 1 ∧
    samplePairAnalytics.sentimentSyncScore (samplePairDB (some 1) (some (-1))) =
      some 0 ∧
    samplePairAnalytics.sentimentSyncScore (samplePairDB (some (1/5)) (some (-(3/10)))) =
      some (3/4) := by
  refine ⟨?_, ?_, ?_, ?_⟩
  · intro a db
    unfold CoupleAnalytics.sentimentSyncScore
    by_cases hp : (a.pairedEntries db).isEmpty
    · have hpe : a.pairedEntries db = [] := by simpa using hp
      have hsp : a.scoredPairs db = [] := by
        simp [CoupleAnalytics.scoredPairs, hpe]
      simp [hp, hsp]
    · simp [hp]
  · norm_num [CoupleAnalytics.sentimentSyncScore, CoupleAnalytics.scoredPairs,
      CoupleAnalytics.pairedEntries, CoupleAnalytics.promptIdsFor,
      CoupleAnalytics.findEntryOf, samplePairDB, samplePairAnalytics, samplePairCouple,
      List.filter_cons, List.filterMap_cons, List.find?_cons_of_pos,
      List.find?_cons_of_neg, List.dedup_cons_of_mem, List.dedup_cons_of_not_mem,
      round3, pyRoundZ]
  · norm_num [CoupleAnalytics.sentimentSyncScore, CoupleAnalytics.scoredPairs,
      CoupleAnalytics.pairedEntries, CoupleAnalytics.promptIdsFor,
      CoupleAnalytics.findEntryOf, samplePairDB, samplePairAnalytics, samplePairCouple,
      List.filter_cons, List.filterMap_cons, List.find?_cons_of_pos,
      List.find?_cons_of_neg, List.dedup_cons_of_mem, List.dedup_cons_of_not_mem,
      round3, pyRoundZ]
  · have habs2 : |(1 : ℚ)/2| = 1/2 := abs_of_nonneg (by norm_num)
    have hr3 : round3 (3/4 : ℚ) = 3/4 := by
      rw [round3_int _ 750 (by norm_num)]
      norm_num
    norm_num [habs2, hr3, CoupleAnalytics.sentimentSyncScore, CoupleAnalytics.scoredPairs,
      CoupleAnalytics.pairedEntries, CoupleAnalytics.promptIdsFor,
      CoupleAnalytics.findEntryOf, samplePairDB, samplePairAnalytics, samplePairCouple,
      List.filter_cons, List.filterMap_cons, List.find?_cons_of_pos,
      List.find?_cons_of_neg, List.dedup_cons_of_mem, List.dedup_cons_of_not_mem]

theorem filterMap_length_of_isSome {α β : Type} (f : α → Option β) (l : List α)
    (h : ∀ x ∈ l, (f x).isSome = true) : (l.filterMap f).length = l.length := by
  induction l with
  | nil => rfl
  | cons x xs ih =>
    rcases Option.isSome_iff_exists.mp (h x (List.mem_cons_self x xs)) with ⟨y, hy⟩
    rw [List.filterMap_cons, hy]
    simp only [List.length_cons]
    rw [ih (fun z hz => h z (List.mem_cons_of_mem _ hz))]

theorem mem_promptIdsFor (a : CoupleAnalytics) (db : DB) (uid pid : Nat) :
    pid ∈ a.promptIdsFor db (some uid) ↔
      ∃ e ∈ db.entries, e.user = uid ∧ e.couple = some a.couple.id ∧
        e.created_year = a.year ∧ e.prompt = pid := by
  unfold CoupleAnalytics.promptIdsFor
  rw [List.mem_dedup, List.mem_map]
  constructor
  · rintro ⟨e, hef, hep⟩
    rw [List.mem_filter] at hef
    have hb := hef.2
    simp only [Bool.and_eq_true, beq_iff_eq] at hb
    exact ⟨e, hef.1, hb.1.1, hb.1.2, hb.2, hep⟩
  · rintro ⟨e, he, h1, h2, h3, h4⟩
    exact ⟨e, List.mem_filter.mpr ⟨he, by simp [h1, h2, h3]⟩, h4⟩

theorem pairedEntries_length_of_fk (a : CoupleAnalytics) (db : DB)
    (hfk : ∀ e ∈ db.entries, ∃ p ∈ db.prompts, p.id = e.prompt) :
    (a.pairedEntries db).length =
      ((a.promptIdsFor db (some a.couple.user1)).filter
        (fun pid => decide (pid ∈ a.promptIdsFor db a.couple.user2))).length := by
  unfold CoupleAnalytics.pairedEntries
  apply filterMap_length_of_isSome
  intro pid hpid
  rw [List.mem_filter] at hpid
  obtain ⟨hpid1, hpid2b⟩ := hpid
  have hpid2 : pid ∈ a.promptIdsFor db a.couple.user2 := by simpa using hpid2b
  obtain ⟨e1, he1m, hu1, hc1, hy1, hp1⟩ := (mem_promptIdsFor a db _ pid).mp hpid1
  obtain ⟨u2, hu2⟩ : ∃ u2, a.couple.user2 = some u2 := by
    cases h2 : a.couple.user2 with
    | none => rw [h2] at hpid2; simp [CoupleAnalytics.promptIdsFor] at hpid2
    | some u2 => exact ⟨u2, rfl⟩
  rw [hu2] at hpid2
  obtain ⟨e2, he2m, hue2, hc2, hy2, hp2⟩ := (mem_promptIdsFor a db u2 pid).mp hpid2
  obtain ⟨p, hpm, hpid_eq⟩ := hfk e1 he1m
  have hpfind : (db.prompts.find? (fun p => p.id == pid)).isSome :=
    List.find?_isSome.mpr ⟨p, hpm, by simp [hpid_eq, hp1]⟩
  obtain ⟨pf, hpf⟩ := Option.isSome_iff_exists.mp hpfind
  have he1find : (a.findEntryOf db a.couple.user1 pid).isSome :=
    List.find?_isSome.mpr ⟨e1, he1m, by simp [CoupleAnalytics.findEntryOf, hu1, hp1, hc1]⟩
  obtain ⟨e1f, he1f⟩ := Option.isSome_iff_exists.mp he1find
  have he2find : (a.findEntryOf db u2 pid).isSome :=
    List.find?_isSome.mpr ⟨e2, he2m, by simp [CoupleAnalytics.findEntryOf, hue2, hp2, hc2]⟩
  obtain ⟨e2f, he2f⟩ := Option.isSome_iff_exists.mp he2find
  simp [hpf, he1f, hu2, he2f, CoupleAnalytics.findEntryOf] at *
  simp [hpf, Option.bind, he1f, he2f]

/-- C8.  The response rate equals the number of prompts answered by both
members in the vault and year divided by the number of prompts whose
`active_date` falls in that year, rounded to three decimals, and is 0.0
when no prompts exist for the year; ten prompts with four paired answers
give 0.4.  (The hypothesis is foreign-key integrity: every entry's prompt
row exists.) -/
theorem response_rate_spec :
    (∀ (a : CoupleAnalytics) (db : DB),
      (∀ e ∈ db.entries, ∃ p ∈ db.prompts, p.id = e.prompt) →
      a.responseRate db =
        (if (db.prompts.filter (fun p => p.active_date.year == a.year)).length = 0 then 0
         else round3 ((((a.promptIdsFor db (some a.couple.user1)).filter
             (fun pid => decide (pid ∈ a.promptIdsFor db a.couple.user2))).length : ℚ) /
           ((db.prompts.filter (fun p => p.active_date.year == a.year)).length : ℚ)))) ∧
    samplePairAnalytics.responseRate sampleTenDB = 2/5 ∧
    samplePairAnalytics.responseRate ⟨[samplePairCouple], [], []⟩ = 0 := by
  refine ⟨?_, ?_, ?_⟩
  · intro a db hfk
    unfold CoupleAnalytics.responseRate
    rw [pairedEntries_length_of_fk a db hfk]
  · norm_num [CoupleAnalytics.responseRate,
      CoupleAnalytics.pairedEntries, CoupleAnalytics.promptIdsFor,
      CoupleAnalytics.findEntryOf, sampleTenDB, samplePairAnalytics, samplePairCouple,
      List.range_succ, List.filter_cons, List.filter_append,
      List.filterMap_cons, List.find?_cons_of_pos,
      List.find?_cons_of_neg, List.dedup_cons_of_mem, List.dedup_cons_of_not_mem,
      round3, pyRoundZ]
  · norm_num [CoupleAnalytics.responseRate]

/-- Witness for C8: the foreign-key hypothesis discharged on the concrete
ten-prompt store. -/
theorem response_rate_spec_witness :
    samplePairAnalytics.responseRate sampleTenDB =
      (if (sampleTenDB.prompts.filter
            (fun p => p.active_date.year == samplePairAnalytics.year)).length = 0 then 0
       else round3
        ((((samplePairAnalytics.promptIdsFor sampleTenDB
              (some samplePairAnalytics.couple.user1)).filter
            (fun pid => decide (pid ∈ samplePairAnalytics.promptIdsFor sampleTenDB
              samplePairAnalytics.couple.user2))).length : ℚ) /
          ((sampleTenDB.prompts.filter
            (fun p => p.active_date.year == samplePairAnalytics.year)).length : ℚ))) :=
  response_rate_spec.1 samplePairAnalytics sampleTenDB (by decide)

/-- C10.  In joy/tough/support detection a missing sentiment score is
coerced to 0 (`score or 0`) before the threshold comparison: a pair with a
null side never counts as shared joy or a tough day, but it does count as
an emotional support moment whenever the coerced scores differ by the gap
threshold, the supporter determined by comparison against that 0 — while
`sentiment_sync_score` skips every pair lacking a score on either side. -/
theorem null_sentiment_coercion :
    (∀ (a : CoupleAnalytics) (db : DB) (t : Prompt × Entry × Entry),
      t ∈ a.pairedEntries db →
      (t.2.1.sentiment_score = none ∨ t.2.2.sentiment_score = none) →
      t ∉ a.sharedJoyMoments db (3/10) ∧
      t ∉ a.toughDaysTogether db (-(1/5)) ∧
      ((1/2 : ℚ) ≤ |t.2.1.sentiment_score.getD 0 - t.2.2.sentiment_score.getD 0| →
        (if t.2.2.sentiment_score.getD 0 < t.2.1.sentiment_score.getD 0 then
          (⟨t.1, some a.couple.user1, a.couple.user2,
            |t.2.1.sentiment_score.getD 0 - t.2.2.sentiment_score.getD 0|⟩ : SupportMoment)
         else ⟨t.1, a.couple.user2, some a.couple.user1,
            |t.2.1.sentiment_score.getD 0 - t.2.2.sentiment_score.getD 0|⟩) ∈
          a.emotionalSupportMoments db (1/2))) ∧
    (∀ (a : CoupleAnalytics) (db : DB),
      (∀ t ∈ a.pairedEntries db,
        t.2.1.sentiment_score = none ∨ t.2.2.sentiment_score = none) →
      a.sentimentSyncScore db = none) := by
  constructor
  · intro a db t ht hnull
    refine ⟨?_, ?_, ?_⟩
    · intro hmem
      simp only [CoupleAnalytics.sharedJoyMoments] at hmem
      rw [mem_sortBy, List.mem_filter] at hmem
      have hb := hmem.2
      simp only [Bool.and_eq_true, decide_eq_true_eq] at hb
      rcases hnull with h | h
      · rw [h] at hb
        simp only [Option.getD_none] at hb
        exact absurd hb.1 (by norm_num)
      · rw [h] at hb
        simp only [Option.getD_none] at hb
        exact absurd hb.2 (by norm_num)
    · intro hmem
      simp only [CoupleAnalytics.toughDaysTogether] at hmem
      rw [List.mem_filter] at hmem
      have hb := hmem.2
      simp only [Bool.and_eq_true, decide_eq_true_eq] at hb
      rcases hnull with h | h
      · rw [h] at hb
        simp only [Option.getD_none] at hb
        exact absurd hb.1 (by norm_num)
      · rw [h] at hb
        simp only [Option.getD_none] at hb
        exact absurd hb.2 (by norm_num)
    · intro hgap
      simp only [CoupleAnalytics.emotionalSupportMoments]
      rw [List.mem_filterMap]
      refine ⟨t, ht, ?_⟩
      by_cases hlt : t.2.2.sentiment_score.getD 0 < t.2.1.sentiment_score.getD 0
      · simp [hgap, hlt]
        linarith [hgap]
      · simp [hgap, hlt]
        linarith [hgap]
  · intro a db hall
    unfold CoupleAnalytics.sentimentSyncScore
    by_cases hp : (a.pairedEntries db).isEmpty
    · simp [hp]
    · have hsp : a.scoredPairs db = [] := by
        rw [CoupleAnalytics.scoredPairs, List.filterMap_eq_nil]
        intro t ht
        rcases hall t ht with h | h <;> rw [h] <;> simp
      simp [hp, hsp]

/-- Witness for C10: a paired entry whose first side has no score and
whose second side scores 0.8 is neither shared joy nor a tough day, does
produce a support moment (the scored member supporting the unscored one),
and leaves the sync score at none. -/
theorem null_sentiment_coercion_witness :
    ((⟨7, "p", "wholesome", ⟨2025, 1, 2⟩⟩, ⟨10, 7, some 1, "a", 1, none, 2025, 1⟩,
        (⟨20, 7, some 1, "b", 1, some (8/10), 2025, 1⟩ : Entry)) ∉
      samplePairAnalytics.sharedJoyMoments (samplePairDB none (some (8/10))) (3/10)) ∧
    ((⟨7, "p", "wholesome", ⟨2025, 1, 2⟩⟩, ⟨10, 7, some 1, "a", 1, none, 2025, 1⟩,
        (⟨20, 7, some 1, "b", 1, some (8/10), 2025, 1⟩ : Entry)) ∉
      samplePairAnalytics.toughDaysTogether (samplePairDB none (some (8/10))) (-(1/5))) ∧
    ((⟨⟨7, "p", "wholesome", ⟨2025, 1, 2⟩⟩, some 20, some 10,
        |(0 : ℚ) - 8/10|⟩ : SupportMoment) ∈
      samplePairAnalytics.emotionalSupportMoments (samplePairDB none (some (8/10))) (1/2)) ∧
    samplePairAnalytics.sentimentSyncScore (samplePairDB none (some (8/10))) = none := by
  have hpe : samplePairAnalytics.pairedEntries (samplePairDB none (some (8/10))) =
      [(⟨7, "p", "wholesome", ⟨2025, 1, 2⟩⟩, ⟨10, 7, some 1, "a", 1, none, 2025, 1⟩,
        (⟨20, 7, some 1, "b", 1, some (8/10), 2025, 1⟩ : Entry))] := by
    norm_num [CoupleAnalytics.pairedEntries, CoupleAnalytics.promptIdsFor,
      CoupleAnalytics.findEntryOf, samplePairDB, samplePairAnalytics, samplePairCouple,
      List.filter_cons, List.filterMap_cons, List.find?_cons_of_pos,
      List.find?_cons_of_neg, List.dedup_cons_of_mem, List.dedup_cons_of_not_mem]
  have ht : (⟨7, "p", "wholesome", ⟨2025, 1, 2⟩⟩, ⟨10, 7, some 1, "a", 1, none, 2025, 1⟩,
      (⟨20, 7, some 1, "b", 1, some (8/10), 2025, 1⟩ : Entry)) ∈
      samplePairAnalytics.pairedEntries (samplePairDB none (some (8/10))) := by
    rw [hpe]; exact List.mem_singleton.mpr rfl
  obtain ⟨h1, h2, h3⟩ := null_sentiment_coercion.1 samplePairAnalytics
    (samplePairDB none (some (8/10))) _ ht (Or.inl rfl)
  have hgap : (1/2 : ℚ) ≤ |(none : Option ℚ).getD 0 - (some ((8 : ℚ)/10)).getD 0| := by
    simp only [Option.getD_none, Option.getD_some]
    rw [zero_sub, abs_neg, abs_of_nonneg (by norm_num)]
    norm_num
  have hsupp := h3 hgap
  rw [if_neg (by simp only [Option.getD_none, Option.getD_some]; norm_num)] at hsupp
  refine ⟨h1, h2, ?_, ?_⟩
  · simpa [samplePairAnalytics, samplePairCouple] using hsupp
  · refine null_sentiment_coercion.2 samplePairAnalytics (samplePairDB none (some (8/10))) ?_
    intro t htm
    rw [hpe] at htm
    rw [List.mem_singleton] at htm
    subst htm
    exact Or.inl rfl

theorem round3_zero : round3 0 = 0 := by
  rw [round3_int 0 0 (by norm_num)]
  norm_num

/-- C2 counterexample.  On a solo vault (member2 null) with no entries at
all — an empty input — `generate_wrapped_data` does not return the
documented defaults: it dereferences the missing second member
(`self.user2.username`, an `AttributeError`), modelled by `none`. -/
theorem wrapped_solo_raises :
    CoupleAnalytics.generateWrappedData ⟨⟨1, 5, none, "c", false⟩, 2025⟩
      ⟨[⟨1, 5, none, "c", false⟩], [], []⟩ = none := rfl

/-- C2 (amended).  Every individual aggregate returns its documented
none/0/empty default when the vault has no entries for the year, when
there are no scored pairs, or when no prompts exist for the year, and
every paired metric degrades to none/zero/empty when member2 is null;
`generate_wrapped_data` returns the assembled defaults whenever member2
is set, but on a member2-null vault it raises (modelled by `none`) instead
of degrading. -/
theorem analytics_empty_defaults :
    (∀ (a : CoupleAnalytics) (db : DB),
      (∀ e ∈ db.entries, ¬(e.couple = some a.couple.id ∧ e.created_year = a.year)) →
      a.coupleAverageSentiment db = none ∧
      a.coupleMonthlySentiment db = [] ∧
      a.happiestMonth db = none ∧
      a.sentimentSyncScore db = none ∧
      a.sharedJoyMoments db (3/10) = [] ∧
      a.toughDaysTogether db (-(1/5)) = [] ∧
      a.emotionalSupportMoments db (1/2) = [] ∧
      a.totalWordsTogether db = 0 ∧
      a.responseRate db = 0 ∧
      a.topVibeTogether db = [] ∧
      a.longestCombinedEntry db = none ∧
      (∀ u2, a.couple.user2 = some u2 →
        a.generateWrappedData db =
          some ⟨a.year, [a.couple.user1, u2], none, none, none, 0, [], 0, 0, 0, 0, [],
            none, []⟩)) ∧
    (∀ (a : CoupleAnalytics) (db : DB), a.couple.user2 = none →
      a.pairedEntries db = [] ∧
      a.sentimentSyncScore db = none ∧
      a.sharedJoyMoments db (3/10) = [] ∧
      a.toughDaysTogether db (-(1/5)) = [] ∧
      a.emotionalSupportMoments db (1/2) = [] ∧
      a.longestCombinedEntry db = none ∧
      a.generateWrappedData db = none) ∧
    (∀ (a : CoupleAnalytics) (db : DB), a.scoredPairs db = [] →
      a.sentimentSyncScore db = none) ∧
    (∀ (a : CoupleAnalytics) (db : DB),
      db.prompts.filter (fun p => p.active_date.year == a.year) = [] →
      a.responseRate db = 0) := by
  refine ⟨?_, ?_, ?_, ?_⟩
  · intro a db h0
    have hY : a.yearEntries db = [] := by
      rw [CoupleAnalytics.yearEntries, List.filter_eq_nil]
      intro e he
      simp only [Bool.and_eq_true, decide_eq_true_eq, beq_iff_eq, not_and]
      intro hab hy
      exact h0 e he ⟨hab.2, hy⟩
    have hS : a.scoredEntries db = [] := by
      rw [CoupleAnalytics.scoredEntries, List.filter_eq_nil]
      intro e he
      simp only [Bool.and_eq_true, decide_eq_true_eq, beq_iff_eq, not_and]
      intro habc _
      exact h0 e he ⟨habc.1.2, habc.2⟩
    have hI1 : a.promptIdsFor db (some a.couple.user1) = [] := by
      rw [CoupleAnalytics.promptIdsFor]
      have hf : db.entries.filter (fun e =>
          e.user == a.couple.user1 && e.couple == some a.couple.id &&
            e.created_year == a.year) = [] := by
        rw [List.filter_eq_nil]
        intro e he
        simp only [Bool.and_eq_true, beq_iff_eq, not_and]
        intro hab hy
        exact h0 e he ⟨hab.2, hy⟩
      rw [hf]
      rfl
    have hpaired : a.pairedEntries db = [] := by
      simp [CoupleAnalytics.pairedEntries, hI1]
    have hmonthly : a.coupleMonthlySentiment db = [] := by
      rw [CoupleAnalytics.coupleMonthlySentiment, List.filterMap_eq_nil]
      intro i _
      simp [hS]
    have hrate : a.responseRate db = 0 := by
      unfold CoupleAnalytics.responseRate
      rw [hpaired]
      by_cases ht : (db.prompts.filter (fun p => p.active_date.year == a.year)).length = 0
      · simp [ht]
      · simp only [ht, if_false, List.length_nil, Nat.cast_zero, zero_div]
        exact round3_zero
    refine ⟨?_, hmonthly, ?_, ?_, ?_, ?_, ?_, ?_, hrate, ?_, ?_, ?_⟩
    · simp [CoupleAnalytics.coupleAverageSentiment, hS]
    · simp [CoupleAnalytics.happiestMonth, hmonthly]
    · simp [CoupleAnalytics.sentimentSyncScore, hpaired]
    · simp [CoupleAnalytics.sharedJoyMoments, hpaired, sortBy]
    · simp [CoupleAnalytics.toughDaysTogether, hpaired]
    · simp [CoupleAnalytics.emotionalSupportMoments, hpaired]
    · simp [CoupleAnalytics.totalWordsTogether, hY]
    · simp [CoupleAnalytics.topVibeTogether, hY, sortBy]
    · simp [CoupleAnalytics.longestCombinedEntry, hpaired]
    · intro u2 hu2
      simp [CoupleAnalytics.generateWrappedData, hu2, CoupleAnalytics.coupleAverageSentiment,
        hS, hmonthly, CoupleAnalytics.happiestMonth, CoupleAnalytics.sentimentSyncScore,
        hpaired, CoupleAnalytics.sharedJoyMoments, sortBy, CoupleAnalytics.toughDaysTogether,
        CoupleAnalytics.emotionalSupportMoments, CoupleAnalytics.totalWordsTogether, hY,
        hrate, CoupleAnalytics.topVibeTogether, CoupleAnalytics.longestCombinedEntry]
  · intro a db hu2
    have hpaired : a.pairedEntries db = [] := by
      simp [CoupleAnalytics.pairedEntries, hu2, CoupleAnalytics.promptIdsFor]
    refine ⟨hpaired, ?_, ?_, ?_, ?_, ?_, ?_⟩
    · simp [CoupleAnalytics.sentimentSyncScore, hpaired]
    · simp [CoupleAnalytics.sharedJoyMoments, hpaired, sortBy]
    · simp [CoupleAnalytics.toughDaysTogether, hpaired]
    · simp [CoupleAnalytics.emotionalSupportMoments, hpaired]
    · simp [CoupleAnalytics.longestCombinedEntry, hpaired]
    · simp [CoupleAnalytics.generateWrappedData, hu2]
  · intro a db hsp
    unfold CoupleAnalytics.sentimentSyncScore
    by_cases hp : (a.pairedEntries db).isEmpty
    · simp [hp]
    · simp [hp, hsp]
  · intro a db hpr
    simp [CoupleAnalytics.responseRate, hpr]

/-- Witness for C2 (amended): the empty store yields the assembled
defaults on the paired sample vault, and `none` (the modelled
`AttributeError`) on a solo vault. -/
theorem analytics_empty_defaults_witness :
    samplePairAnalytics.generateWrappedData ⟨[samplePairCouple], [], []⟩ =
      some ⟨2025, [10, 20], none, none, none, 0, [], 0, 0, 0, 0, [], none, []⟩ ∧
    CoupleAnalytics.generateWrappedData ⟨⟨1, 5, none, "c", false⟩, 2025⟩
      ⟨[⟨1, 5, none, "c", false⟩], [], []⟩ = none := by
  constructor
  · obtain ⟨_, _, _, _, _, _, _, _, _, _, _, hw⟩ :=
      analytics_empty_defaults.1 samplePairAnalytics ⟨[samplePairCouple], [], []⟩
        (by intro e he; simp at he)
    exact hw 20 rfl
  · exact (analytics_empty_defaults.2.1 ⟨⟨1, 5, none, "c", false⟩, 2025⟩
      ⟨[⟨1, 5, none, "c", false⟩], [], []⟩ rfl).2.2.2.2.2.2

theorem Date.leb_refl (a : Date) : Date.leb a a = true := by
  simp [Date.leb]

theorem Date.leb_trans {a b c : Date} (h1 : Date.leb a b = true)
    (h2 : Date.leb b c = true) : Date.leb a c = true := by
  simp only [Date.leb, Bool.or_eq_true, Bool.and_eq_true, decide_eq_true_eq,
    beq_iff_eq] at h1 h2 ⊢
  omega

theorem Date.leb_of_ltb {a b : Date} (h : Date.ltb a b = true) :
    Date.leb a b = true := by
  simp only [Date.ltb, Bool.or_eq_true, Bool.and_eq_true, decide_eq_true_eq,
    beq_iff_eq] at h
  simp only [Date.leb, Bool.or_eq_true, Bool.and_eq_true, decide_eq_true_eq,
    beq_iff_eq]
  omega

theorem minFoldDate_cons (p0 x : Prompt) (xs : List Prompt) :
    minFoldDate p0 (x :: xs) =
      minFoldDate (if Date.ltb x.active_date p0.active_date then x else p0) xs := by
  rfl

theorem minFoldDate_mem (ps : List Prompt) (p0 : Prompt) :
    minFoldDate p0 ps ∈ p0 :: ps := by
  induction ps generalizing p0 with
  | nil => simp [minFoldDate]
  | cons x xs ih =>
    rw [minFoldDate_cons]
    by_cases hc : Date.ltb x.active_date p0.active_date = true
    · rw [if_pos hc]
      rcases List.mem_cons.mp (ih x) with h1 | h1
      · rw [h1]
        simp
      · exact List.mem_cons.mpr (Or.inr (List.mem_cons.mpr (Or.inr h1)))
    · rw [if_neg hc]
      rcases List.mem_cons.mp (ih p0) with h1 | h1
      · rw [h1]
        simp
      · exact List.mem_cons.mpr (Or.inr (List.mem_cons.mpr (Or.inr h1)))

theorem minFoldDate_le (ps : List Prompt) (p0 : Prompt) :
    Date.leb (minFoldDate p0 ps).active_date p0.active_date = true ∧
      ∀ q ∈ ps, Date.leb (minFoldDate p0 ps).active_date q.active_date = true := by
  induction ps generalizing p0 with
  | nil => exact ⟨Date.leb_refl _, by simp⟩
  | cons x xs ih =>
    rw [minFoldDate_cons]
    have ihs := ih (if Date.ltb x.active_date p0.active_date then x else p0)
    have hstp0 : Date.leb
        (if Date.ltb x.active_date p0.active_date then x else p0).active_date
        p0.active_date = true := by
      by_cases hc : Date.ltb x.active_date p0.active_date = true
      · rw [if_pos hc]; exact Date.leb_of_ltb hc
      · rw [if_neg hc]; exact Date.leb_refl _
    have hstx : Date.leb
        (if Date.ltb x.active_date p0.active_date then x else p0).active_date
        x.active_date = true := by
      by_cases hc : Date.ltb x.active_date p0.active_date = true
      · rw [if_pos hc]; exact Date.leb_refl _
      · rw [if_neg hc]
        exact Date.leb_of_not_ltb (Bool.not_eq_true _ ▸ hc)
    refine ⟨Date.leb_trans ihs.1 hstp0, ?_⟩
    intro q hq
    rcases List.mem_cons.mp hq with h1 | h1
    · rw [h1]
      exact Date.leb_trans ihs.1 hstx
    · exact ihs.2 q h1

theorem minByActiveDate_eq_none (l : List Prompt) :
    minByActiveDate l = none ↔ l = [] := by
  cases l <;> simp [minByActiveDate]

theorem minByActiveDate_spec (l : List Prompt) (p : Prompt)
    (h : minByActiveDate l = some p) :
    p ∈ l ∧ ∀ q ∈ l, Date.leb p.active_date q.active_date = true := by
  cases l with
  | nil => cases h
  | cons x xs =>
    rw [minByActiveDate] at h
    have hp : minFoldDate x xs = p := Option.some_inj.mp h
    subst hp
    refine ⟨minFoldDate_mem xs x, ?_⟩
    intro q hq
    rcases List.mem_cons.mp hq with h1 | h1
    · rw [h1]
      exact (minFoldDate_le xs x).1
    · exact (minFoldDate_le xs x).2 q h1

/-- C3.  `get_todays_prompt` resolves "today" in the requested IANA zone
and returns the prompt whose `active_date` matches that date's month and
day independently of the year — none when no prompt matches, and the one
with the earliest full `active_date` when several match; a prompt dated
2024-03-15 is returned both on 2025-03-15 and on 2026-03-15. -/
theorem get_todays_prompt_cycling :
    (∀ (tzdb : String → Int) (prompts : List Prompt) (utcDate : Date)
        (utcMinute : Nat) (tz : String),
      (getTodaysPrompt tzdb prompts utcDate utcMinute tz = none ↔
        ∀ p ∈ prompts,
          ¬(p.active_date.month = (localDate utcDate utcMinute (tzdb tz)).month ∧
            p.active_date.day = (localDate utcDate utcMinute (tzdb tz)).day))) ∧
    (∀ (tzdb : String → Int) (prompts : List Prompt) (utcDate : Date)
        (utcMinute : Nat) (tz : String) (p : Prompt),
      getTodaysPrompt tzdb prompts utcDate utcMinute tz = some p →
        p ∈ prompts ∧
        p.active_date.month = (localDate utcDate utcMinute (tzdb tz)).month ∧
        p.active_date.day = (localDate utcDate utcMinute (tzdb tz)).day ∧
        ∀ q ∈ prompts,
          q.active_date.month = (localDate utcDate utcMinute (tzdb tz)).month →
          q.active_date.day = (localDate utcDate utcMinute (tzdb tz)).day →
          Date.leb p.active_date q.active_date = true) ∧
    getTodaysPrompt (fun _ => 0) [⟨1, "x", "wholesome", ⟨2024, 3, 15⟩⟩]
      ⟨2025, 3, 15⟩ 720 "UTC" = some ⟨1, "x", "wholesome", ⟨2024, 3, 15⟩⟩ ∧
    getTodaysPrompt (fun _ => 0) [⟨1, "x", "wholesome", ⟨2024, 3, 15⟩⟩]
      ⟨2026, 3, 15⟩ 720 "UTC" = some ⟨1, "x", "wholesome", ⟨2024, 3, 15⟩⟩ := by
  refine ⟨?_, ?_, by decide, by decide⟩
  · intro tzdb prompts utcDate utcMinute tz
    unfold getTodaysPrompt
    rw [minByActiveDate_eq_none, List.filter_eq_nil]
    simp only [Bool.and_eq_true, beq_iff_eq, not_and]
  · intro tzdb prompts utcDate utcMinute tz p h
    unfold getTodaysPrompt at h
    obtain ⟨hmem, hmin⟩ := minByActiveDate_spec _ p h
    rw [List.mem_filter] at hmem
    have hb := hmem.2
    simp only [Bool.and_eq_true, beq_iff_eq] at hb
    refine ⟨hmem.1, hb.1, hb.2, ?_⟩
    intro q hq hqm hqd
    exact hmin q (List.mem_filter.mpr ⟨hq, by simp [hqm, hqd]⟩)

/-- Witness for C3: the earliest-match and month/day conclusions at a
concrete one-prompt catalog evaluated on 2025-03-15 UTC noon. -/
theorem get_todays_prompt_cycling_witness :
    (⟨1, "x", "wholesome", ⟨2024, 3, 15⟩⟩ : Prompt) ∈
      [(⟨1, "x", "wholesome", ⟨2024, 3, 15⟩⟩ : Prompt)] ∧
    (⟨1, "x", "wholesome", ⟨2024, 3, 15⟩⟩ : Prompt).active_date.month =
      (localDate ⟨2025, 3, 15⟩ 720 ((fun _ => (0 : Int)) "UTC")).month ∧
    (⟨1, "x", "wholesome", ⟨2024, 3, 15⟩⟩ : Prompt).active_date.day =
      (localDate ⟨2025, 3, 15⟩ 720 ((fun _ => (0 : Int)) "UTC")).day ∧
    ∀ q ∈ [(⟨1, "x", "wholesome", ⟨2024, 3, 15⟩⟩ : Prompt)],
      q.active_date.month = (localDate ⟨2025, 3, 15⟩ 720 ((fun _ => (0 : Int)) "UTC")).month →
      q.active_date.day = (localDate ⟨2025, 3, 15⟩ 720 ((fun _ => (0 : Int)) "UTC")).day →
      Date.leb (⟨1, "x", "wholesome", ⟨2024, 3, 15⟩⟩ : Prompt).active_date
        q.active_date = true :=
  get_todays_prompt_cycling.2.1 (fun _ => 0) [⟨1, "x", "wholesome", ⟨2024, 3, 15⟩⟩]
    ⟨2025, 3, 15⟩ 720 "UTC" ⟨1, "x", "wholesome", ⟨2024, 3, 15⟩⟩ (by decide)

theorem get?_mod_of_nonempty {α : Type} (l : List α) (r : Nat) (h : l ≠ []) :
    ∃ s ∈ l, l.get? (r % l.length) = some s := by
  have hlen : 0 < l.length := List.length_pos.mpr h
  have hlt : r % l.length < l.length := Nat.mod_lt _ hlen
  exact ⟨l.get ⟨r % l.length, hlt⟩, List.get_mem l _ hlt, List.get?_eq_get hlt⟩

/-- C6.  Spark rotation never serves a spark archived by the requesting
user while a non-archived candidate exists in the requested category/vibe;
recently shown ids are likewise excluded while that still leaves a
candidate; and when the exclusions empty the pool the selection falls back
to the remaining pool for that category/vibe instead of returning none. -/
theorem spark_rotation_exclusions (sparks : List Spark)
    (prefs : List SparkPreference) (category : String) (vibe : Option String)
    (u : Nat) (excludeIds : List Nat) (r : Nat) :
    (sparkPoolNonArchived sparks prefs category vibe (some u) ≠ [] →
      ∀ s, getRandomSpark sparks prefs category vibe (some u) excludeIds r = some s →
        sparkArchived prefs u s.id = false) ∧
    (sparkPoolFresh sparks prefs category vibe (some u) excludeIds ≠ [] →
      ∀ s, getRandomSpark sparks prefs category vibe (some u) excludeIds r = some s →
        sparkArchived prefs u s.id = false ∧ s.id ∉ excludeIds) ∧
    (sparkPool sparks category vibe ≠ [] →
      (getRandomSpark sparks prefs category vibe (some u) excludeIds r).isSome = true) := by
  have hmem1 : ∀ s, s ∈ sparkPoolNonArchived sparks prefs category vibe (some u) →
      sparkArchived prefs u s.id = false := by
    intro s hs
    rw [sparkPoolNonArchived, List.mem_filter] at hs
    have := hs.2
    simpa using this
  have hmem2 : ∀ s, s ∈ sparkPoolFresh sparks prefs category vibe (some u) excludeIds →
      sparkArchived prefs u s.id = false ∧ s.id ∉ excludeIds := by
    intro s hs
    rw [sparkPoolFresh, List.mem_filter] at hs
    refine ⟨hmem1 s hs.1, by simpa using hs.2⟩
  refine ⟨?_, ?_, ?_⟩
  · intro h1 s hs
    simp only [getRandomSpark] at hs
    cases he2 : (sparkPoolFresh sparks prefs category vibe (some u) excludeIds).isEmpty with
    | true =>
      cases he1 : (sparkPoolNonArchived sparks prefs category vibe (some u)).isEmpty with
      | true =>
        have : sparkPoolNonArchived sparks prefs category vibe (some u) = [] := by
          simpa using he1
        exact absurd this h1
      | false =>
        rw [he2, he1] at hs
        simp only [Bool.not_true, Bool.not_false, Bool.false_eq_true, if_false,
          if_true] at hs
        exact hmem1 s (List.get?_mem hs)
    | false =>
      rw [he2] at hs
      simp only [Bool.not_false, if_true] at hs
      exact (hmem2 s (List.get?_mem hs)).1
  · intro h2 s hs
    simp only [getRandomSpark] at hs
    cases he2 : (sparkPoolFresh sparks prefs category vibe (some u) excludeIds).isEmpty with
    | true =>
      have : sparkPoolFresh sparks prefs category vibe (some u) excludeIds = [] := by
        simpa using he2
      exact absurd this h2
    | false =>
      rw [he2] at hs
      simp only [Bool.not_false, if_true] at hs
      exact hmem2 s (List.get?_mem hs)
  · intro h0
    simp only [getRandomSpark]
    cases he2 : (sparkPoolFresh sparks prefs category vibe (some u) excludeIds).isEmpty with
    | true =>
      cases he1 : (sparkPoolNonArchived sparks prefs category vibe (some u)).isEmpty with
      | true =>
        simp only [Bool.not_true, Bool.false_eq_true, if_false]
        obtain ⟨s, _, hs⟩ := get?_mod_of_nonempty (sparkPool sparks category vibe) r h0
        rw [hs]
        rfl
      | false =>
        simp only [Bool.not_true, Bool.not_false, Bool.false_eq_true, if_false, if_true]
        obtain ⟨s, _, hs⟩ := get?_mod_of_nonempty
          (sparkPoolNonArchived sparks prefs category vibe (some u)) r
          (by intro hnil; rw [hnil] at he1; simp at he1)
        rw [hs]
        rfl
    | false =>
      simp only [Bool.not_false, if_true]
      obtain ⟨s, _, hs⟩ := get?_mod_of_nonempty
        (sparkPoolFresh sparks prefs category vibe (some u) excludeIds) r
        (by intro hnil; rw [hnil] at he2; simp at he2)
      rw [hs]
      rfl

/-- Witness for C6: with spark 1 archived by user 5, rotation over the
two-spark date pool returns the non-archived spark 2; when spark 2 is also
in the recency window the rotation still serves a card rather than none. -/
theorem spark_rotation_exclusions_witness :
    (sparkArchived [⟨5, 1, true⟩] 5
      ((getRandomSpark [⟨1, "a", "date", "", "wholesome", ""⟩,
          ⟨2, "b", "date", "", "wholesome", ""⟩] [⟨5, 1, true⟩] "date" none (some 5) [] 0).getD
        ⟨0, "", "", "", "", ""⟩).id = false) ∧
    (getRandomSpark [⟨1, "a", "date", "", "wholesome", ""⟩,
        ⟨2, "b", "date", "", "wholesome", ""⟩] [⟨5, 1, true⟩] "date" none (some 5)
      [2] 0).isSome = true := by
  constructor
  · have h := (spark_rotation_exclusions [⟨1, "a", "date", "", "wholesome", ""⟩,
        ⟨2, "b", "date", "", "wholesome", ""⟩] [⟨5, 1, true⟩] "date" none 5 [] 0).1
      (by decide)
    cases hs : getRandomSpark [⟨1, "a", "date", "", "wholesome", ""⟩,
        ⟨2, "b", "date", "", "wholesome", ""⟩] [⟨5, 1, true⟩] "date" none (some 5) [] 0 with
    | none =>
      have h0 := (spark_rotation_exclusions [⟨1, "a", "date", "", "wholesome", ""⟩,
          ⟨2, "b", "date", "", "wholesome", ""⟩] [⟨5, 1, true⟩] "date" none 5 [] 0).2.2
        (by decide)
      rw [hs] at h0
      cases h0
    | some s =>
      simp only [Option.getD_some]
      exact h s hs
  · exact (spark_rotation_exclusions [⟨1, "a", "date", "", "wholesome", ""⟩,
      ⟨2, "b", "date", "", "wholesome", ""⟩] [⟨5, 1, true⟩] "date" none 5 [2] 0).2.2
      (by decide)

end Vault
